import Mathlib

/-!
# Verification of the modcc lexer/parser front end and multicore ion state

Shallow embedding of the NMODL front-end compiler's lexer, the
recursive-descent parser over its token stream (precedence climbing with the
specialised stoichiometric / reaction / conserve / solve sub-grammars), and of
the multicore backend's `ion_state`/`shared_state` reset sequence.

The parser implementation itself is not among the provided sources (only its
header `parser.hpp` and the unit tests `test_parser.cpp` are), so the
definitions below are modelled from the specification's grammar description
and cross-checked against every relevant unit-test input.
-/

namespace Modcc

/-- Lexer / parser status, as the C++ `lexerStatus` enumeration. -/
inductive lexerStatus where
  | happy
  | error
deriving DecidableEq, Repr

/-- Source location `(line, column)`, attached to every token and to the
recorded first error; both counters are 1-based. -/
structure Location where
  line : Nat
  column : Nat
deriving DecidableEq, Repr

/-- Exact value of a decimal floating literal: `mant * 10 ^ exp10`.
The C++ lexer stores an `f64`; the claims only exercise values that are
exact in decimal, so this representation is faithful on them. -/
structure decimal where
  mant : Int
  exp10 : Int
deriving DecidableEq, Repr

/-- The rational number denoted by a decimal literal value. -/
def decimal.toRat (d : decimal) : ℚ := (d.mant : ℚ) * 10 ^ d.exp10

/-- Token kinds with payloads, modelling the C++ `tok` enumeration together
with the spelling / numeric value carried by a `Token`.
Modelled from the spec: §3.2 token list and §4.1 scanning rules; the parser
sources carry only the declarations. -/
inductive tok where
  | plus
  | minus
  | times
  | divide
  | pow
  | lparen
  | rparen
  | lbrace
  | rbrace
  | comma
  | eq
  | lt
  | lte
  | gt
  | gte
  | equality
  | ne
  | arrow           -- the reaction arrow <->
  | rarrow          -- the one-directional ->
  | tilde
  | newline
  | identifier (name : String)
  | integer (value : Int)
  | real (value : decimal)
  | conserveKw
  | solveKw
  | methodKw
  | cnexpKw
  | sparseKw
  | minKw
  | maxKw
  | expKw
  | logKw
  | absKw
  | localKw
  | conductanceKw
  | useionKw
  | ifKw
  | elseKw
  | stateKw
  | procedureKw
  | functionKw
  | netReceiveKw
  | kineticKw
  | derivativeKw
  | breakpointKw
  | initialKw
  | eof
  | errTok
deriving DecidableEq, Repr

/-- Is `c` an ASCII digit? -/
def isDigitC (c : Char) : Bool := 48 ≤ c.toNat && c.toNat ≤ 57

/-- Digit value of an ASCII digit character. -/
def digitVal (c : Char) : Nat := c.toNat - 48

/-- Is `c` a character that may start an identifier (`[A-Za-z_]`)? -/
def isAlphaC (c : Char) : Bool :=
  (65 ≤ c.toNat && c.toNat ≤ 90) || (97 ≤ c.toNat && c.toNat ≤ 122) || c.toNat = 95

/-- Is `c` an identifier-continuation character (`[A-Za-z0-9_]`)? -/
def isIdentC (c : Char) : Bool := isAlphaC c || isDigitC c

/-- Numeric value of a digit string (most significant digit first). -/
def digitsVal (ds : List Char) : Nat := ds.foldl (fun acc c => 10 * acc + digitVal c) 0

/-- Longest prefix of digits, together with the rest of the input. -/
def takeDigits : List Char → List Char × List Char
  | [] => ([], [])
  | c :: cs =>
    if isDigitC c then
      let (ds, rest) := takeDigits cs
      (c :: ds, rest)
    else
      ([], c :: cs)

/-- Longest prefix of identifier characters, together with the rest. -/
def takeIdent : List Char → List Char × List Char
  | [] => ([], [])
  | c :: cs =>
    if isIdentC c then
      let (ds, rest) := takeIdent cs
      (c :: ds, rest)
    else
      ([], c :: cs)

/-- The reserved-word table relevant to the verified grammar entry points,
mapping an identifier spelling to its keyword token.
Modelled from the spec: §3.2 reserved words and the intrinsic names
`min max exp log abs cnexp sparse`. -/
def keywordTok (s : String) : tok :=
  if s = "CONSERVE" then .conserveKw
  else if s = "SOLVE" then .solveKw
  else if s = "METHOD" then .methodKw
  else if s = "cnexp" then .cnexpKw
  else if s = "sparse" then .sparseKw
  else if s = "min" then .minKw
  else if s = "max" then .maxKw
  else if s = "exp" then .expKw
  else if s = "log" then .logKw
  else if s = "abs" then .absKw
  else if s = "LOCAL" then .localKw
  else if s = "CONDUCTANCE" then .conductanceKw
  else if s = "USEION" then .useionKw
  else if s = "if" then .ifKw
  else if s = "else" then .elseKw
  else if s = "STATE" then .stateKw
  else if s = "PROCEDURE" then .procedureKw
  else if s = "FUNCTION" then .functionKw
  else if s = "NET_RECEIVE" then .netReceiveKw
  else if s = "KINETIC" then .kineticKw
  else if s = "DERIVATIVE" then .derivativeKw
  else if s = "BREAKPOINT" then .breakpointKw
  else if s = "INITIAL" then .initialKw
  else .identifier s

/-- Value of a real literal: integer digits, fractional digits, exponent. -/
def realVal (intDs fracDs : List Char) (esign : Bool) (expDs : List Char) : decimal :=
  { mant := digitsVal (intDs ++ fracDs)
    exp10 := (if esign then -(digitsVal expDs : Int) else (digitsVal expDs : Int))
               - (fracDs.length : Int) }

/-- Scan a numeric literal starting at a digit.  Returns the token and the
rest of the input.  Follows the scanner's rule that the exponent part is
consumed only when `e`/`E` is followed by a digit, or by a sign and a digit;
a literal with neither fractional nor exponent part is an integer.
Modelled from the spec: §4.1 "Integer literal `[0-9]+` …; Real literal … with
at least one of fractional or exponent part present. Critical: `3e2` is a
real (value 300.0)" — and the unit tests that lex `4E` as integer `4`
followed by identifier `E`, but `7E+2` as the real `700`. -/
def scanNumber (input : List Char) : tok × List Char :=
  let (intDs, rest1) := takeDigits input
  let (hasFrac, fracDs, rest2) :=
    match rest1 with
    | '.' :: cs => let (fs, r) := takeDigits cs; (true, fs, r)
    | _ => (false, [], rest1)
  let expPart : Option (Bool × List Char × List Char) :=
    match rest2 with
    | 'e' :: c :: cs =>
      if isDigitC c then
        let (es, r) := takeDigits (c :: cs); some (false, es, r)
      else if c = '+' || c = '-' then
        match cs with
        | d :: ds =>
          if isDigitC d then
            let (es, r) := takeDigits (d :: ds); some (c = '-', es, r)
          else none
        | [] => none
      else none
    | 'E' :: c :: cs =>
      if isDigitC c then
        let (es, r) := takeDigits (c :: cs); some (false, es, r)
      else if c = '+' || c = '-' then
        match cs with
        | d :: ds =>
          if isDigitC d then
            let (es, r) := takeDigits (d :: ds); some (c = '-', es, r)
          else none
        | [] => none
      else none
    | _ => none
  match expPart with
  | some (esign, expDs, rest3) => (.real (realVal intDs fracDs esign expDs), rest3)
  | none =>
    if hasFrac then (.real (realVal intDs fracDs false []), rest2)
    else (.integer (digitsVal intDs), rest2)

/-- Skip a line comment (`:` or `?` to end of line); the newline stays. -/
def skipComment : List Char → List Char
  | [] => []
  | c :: cs => if c = '\n' then c :: cs else skipComment cs

/-- One step of the lexer: produce the next token and the remaining input,
or `none` when only trivia (whitespace / comment) was consumed.
Modelled from the spec: §4.1 scanning rules (whitespace and `:`/`?` comments
skipped, identifiers vs. reserved words, numeric classification, greedy
two-character operators `<-> <= >= == != ->`, unknown characters produce an
`ERROR` token). -/
def lexStep : List Char → Option (tok × List Char) × List Char
  | [] => (some (.eof, []), [])
  | c :: cs =>
    if c = ' ' || c = '\t' || c = '\r' then (none, cs)
    else if c = ':' || c = '?' then (none, skipComment cs)
    else if c = '\n' then (some (.newline, cs), cs)
    else if isDigitC c then
      let (t, rest) := scanNumber (c :: cs)
      (some (t, rest), rest)
    else if isAlphaC c then
      let (ds, rest) := takeIdent (c :: cs)
      (some (keywordTok (String.mk ds), rest), rest)
    else if c = '(' then (some (.lparen, cs), cs)
    else if c = ')' then (some (.rparen, cs), cs)
    else if c = '{' then (some (.lbrace, cs), cs)
    else if c = '}' then (some (.rbrace, cs), cs)
    else if c = ',' then (some (.comma, cs), cs)
    else if c = '+' then (some (.plus, cs), cs)
    else if c = '-' then
      match cs with
      | '>' :: cs' => (some (.rarrow, cs'), cs')
      | _ => (some (.minus, cs), cs)
    else if c = '*' then (some (.times, cs), cs)
    else if c = '/' then (some (.divide, cs), cs)
    else if c = '^' then (some (.pow, cs), cs)
    else if c = '~' then (some (.tilde, cs), cs)
    else if c = '=' then
      match cs with
      | '=' :: cs' => (some (.equality, cs'), cs')
      | _ => (some (.eq, cs), cs)
    else if c = '<' then
      match cs with
      | '-' :: '>' :: cs' => (some (.arrow, cs'), cs')
      | '=' :: cs' => (some (.lte, cs'), cs')
      | _ => (some (.lt, cs), cs)
    else if c = '>' then
      match cs with
      | '=' :: cs' => (some (.gte, cs'), cs')
      | _ => (some (.gt, cs), cs)
    else if c = '!' then
      match cs with
      | '=' :: cs' => (some (.ne, cs'), cs')
      | _ => (some (.errTok, cs), cs)
    else (some (.errTok, cs), cs)

/-- Advance a location over one lexer step: `consumed` characters on the
current line, or onto the next line when the step produced a newline. -/
def advanceLoc (loc : Location) (consumed : Nat) (isNewline : Bool) : Location :=
  if isNewline then { line := loc.line + 1, column := 1 }
  else { loc with column := loc.column + consumed }

/-- Fuel-driven token-stream builder with line/column tracking; every token
carries the location of its first character.  Stops after `EOF` or after the
first `ERROR` token (the lexer's status is then error; in the parser model
the scanned-but-never-consumed `ERROR` token at the head of the stream
stands for that flag, see `pstatus`).  Also returns the location reached at
the end of the stream (the location reported for `EOF`). -/
def lexAux : Nat → Location → List Char → List (tok × Location) × Location
  | 0, loc, _ => ([], loc)
  | fuel + 1, loc, input =>
    match lexStep input with
    | (none, rest) => lexAux fuel (advanceLoc loc (input.length - rest.length) false) rest
    | (some (.eof, _), _) => ([], loc)
    | (some (.errTok, _), _) => ([(.errTok, loc)], loc)
    | (some (t, rest), _) =>
      let r := lexAux fuel (advanceLoc loc (input.length - rest.length) (t = .newline)) rest
      ((t, loc) :: r.1, r.2)

/-- Tokenise a whole source string into located tokens (the terminating
`EOF` is implicit: the parser treats an exhausted stream as the `EOF`
token, at the returned end location). -/
def lexLoc (s : String) : List (tok × Location) × Location :=
  lexAux (s.length + 1) { line := 1, column := 1 } s.data

/-- The token-kind stream of a source string. -/
def lex (s : String) : List tok := (lexLoc s).1.map Prod.fst

/-- Solver method of a `SOLVE` statement, as the C++ `solverMethod`. -/
inductive solverMethod where
  | cnexp
  | sparse
  | none
deriving DecidableEq, Repr

/-- Ion channel kind of a `CONDUCTANCE` statement, as the C++ `ionKind`. -/
inductive ionKind where
  | Na
  | K
  | Ca
  | nonspecific
deriving DecidableEq, Repr

/-- Kind tag of a procedural block, as the C++ `procedureKind`. -/
inductive procedureKind where
  | normal
  | kinetic
  | derivative
  | breakpoint
  | initial
  | net_receive
deriving DecidableEq, Repr

/-- The polymorphic AST node hierarchy (C++ `Expression` and its subclasses),
as a tagged variant.  Location fields are omitted: no claim mentions them. -/
inductive Expression where
  | IntegerExpression (value : Int)
  | RealExpression (value : decimal)
  | IdentifierExpression (name : String)
  | CallExpression (name : String) (args : List Expression)
  | UnaryExpression (op : tok) (arg : Expression)
  | BinaryExpression (op : tok) (lhs rhs : Expression)
  | AssignmentExpression (lhs rhs : Expression)
  | StoichTermExpression (coeff : Expression) (ident : Expression)
  | StoichExpression (terms : List Expression)
  | ReactionExpression (lhs rhs fwd rev : Expression)
  | ConserveExpression (lhs rhs : Expression)
  | SolveExpression (name : String) (method : solverMethod)
  | LocalDeclaration (vars : List String)
  | ConductanceExpression (name : String) (channel : ionKind)
  | BlockExpression (is_nested : Bool) (statements : List Expression)
  | IfExpression (condition trueBranch : Expression) (falseBranch : Option Expression)
  | InitialExpression (body : Expression)
  | PrototypeExpression (name : String) (args : List String)
  | ProcedureExpression (name : String) (args : List String) (body : Expression)
      (kind : procedureKind)
  | FunctionExpression (name : String) (args : List String) (body : Expression)
deriving Repr

/-- Ion kind named in a `USEION` clause, or `none` for an unknown ion. -/
def ionKindOf (s : String) : Option ionKind :=
  if s = "na" then some .Na
  else if s = "k" then some .K
  else if s = "ca" then some .Ca
  else none

/-- `StoichTermExpression::negative()`: the term's integer coefficient is
negative. -/
def negativeTerm : Expression → Bool
  | .StoichTermExpression (.IntegerExpression v) _ => v < 0
  | _ => false

/-- All terms of a stoichiometric expression have non-negative coefficient
(the reaction parser's check on both reaction halves). -/
def stoichAllNonneg : Expression → Bool
  | .StoichExpression terms => terms.all (fun t => !negativeTerm t)
  | _ => false

/-- Binary-operator precedence (low → high), from the spec's table:
`=` 1; comparisons 2; binary `+ -` 3; `* /` 4; `^` 5; 0 marks a token that
is not a binary operator. -/
def binop_precedence : tok → Nat
  | .eq => 1
  | .lt => 2
  | .lte => 2
  | .gt => 2
  | .gte => 2
  | .equality => 2
  | .ne => 2
  | .plus => 3
  | .minus => 3
  | .times => 4
  | .divide => 4
  | .pow => 5
  | _ => 0

/-- Parser state: the remaining located token stream (head = the token in
the parser's single-token buffer), the status flag, the recorded first-error
message and location, and the end-of-input location, as the C++ `Parser`'s
lexer-inherited state. -/
structure PState where
  toks : List (tok × Location)
  status : lexerStatus
  error_string : String
  error_location : Location
  endLoc : Location
deriving Repr

/-- The current token (an exhausted stream stands for `EOF`). -/
def cur (s : PState) : tok := (s.toks.headD (.eof, s.endLoc)).1

/-- Location of the current token, `Lexer::location`. -/
def curLoc (s : PState) : Location := (s.toks.headD (.eof, s.endLoc)).2

/-- Single-token lookahead, `Lexer::peek`. -/
def peekTok (s : PState) : tok := ((s.toks.drop 1).headD (.eof, s.endLoc)).1

/-- Consume the current token, `Lexer::get`. -/
def pnext (s : PState) : PState := { s with toks := s.toks.drop 1 }

/-- Successful parse result: the node, status untouched. -/
def pok {α : Type} (a : α) (s : PState) : Option α × PState := (some a, s)

/-- Failed parse: record the message with the current location, set status
to `error`, produce null.
Modelled from the spec: §4.6 "On first syntactic failure the parser records
`(message, Location)`, sets status to `error`, and unwinds producing `null`". -/
def perr {α : Type} (msg : String) (s : PState) : Option α × PState :=
  (none,
    { s with
      status := lexerStatus.error
      error_string := msg
      error_location := curLoc s })

/-- Sequencing that unwinds on null, as each parse method's early return. -/
def pbind {α β : Type} (m : Option α × PState)
    (f : α → PState → Option β × PState) :
    Option β × PState :=
  match m with
  | (none, s) => (none, s)
  | (some e, s) => f e s

/-- The observable `Parser::status()`.  The lexer flags an error the moment
it scans an unrecognised character — including a scan into the lookahead
buffer that the parser never consumes.  In this embedding a scanned `ERROR`
token is exactly an `ERROR` token at the head of the remaining stream (the
lexer stops at it and no grammar rule consumes it), so the observable
status is error when the parser has recorded a failure or when the buffered
current token is the `ERROR` token. -/
def pstatus (s : PState) : lexerStatus :=
  if s.status = lexerStatus.error then lexerStatus.error
  else if cur s = tok.errTok then lexerStatus.error
  else lexerStatus.happy

/-- Does a token start a stoichiometric term (first set of the grammar)? -/
def stoichFirst : tok → Bool
  | .integer _ => true
  | .identifier _ => true
  | .minus => true
  | _ => false

/-- Is the current token a statement terminator (newline or end of input)? -/
def lineEnd (s : PState) : Bool :=
  match cur s with
  | .newline => true
  | .eof => true
  | _ => false

/-- Control points of the recursive-descent parser: one tag per parse
method of the C++ `Parser` (loops carry their accumulator). -/
inductive PFn where
  | primary
  | unaryop
  | unaryFn (op : tok)
  | binCall (op : tok)
  | expr (minPrec : Nat)
  | exprLoop (minPrec : Nat) (lhs : Expression)
  | paren
  | callArgs (name : String) (acc : List Expression)
  | lineExpr
  | stoichTerm (negative : Bool)
  | stoichExpr
  | stoichLoop (acc : List Expression)
  | reaction
  | conserve
  | solve
  | localDecl
  | localLoop (acc : List String)
  | conductance
  | ifStmt
  | block (nested : Bool)
  | blockLoop (nested : Bool) (acc : List Expression)
  | statement
  | initialStmt
  | prototype (forced : Option String)
  | protoArgs (name : String) (acc : List String)
  | procedure
  | procBody (forced : Option String) (kind : procedureKind)
  | function

/-- The recursive-descent parser over the token stream, fuel-indexed so that
every definition is structurally recursive.
Modelled from the spec: §4.3 precedence climbing (`parse_expression(min_prec)`
parses a primary, then while the next token is a binary operator whose
precedence ≥ `min_prec`, consumes it and recursively parses a right operand
at precedence `p+1`, or `p` for the right-associative `^`; assignment is
rejected inside sub-expressions), §4.4 statement dispatch, and §4.5
stoich / reaction / conserve grammars; cross-checked against every input of
`test_parser.cpp`.  The parser implementation file is not among the provided
sources — only its header `parser.hpp` and its unit tests are. -/
def run : PFn → Nat → PState → Option Expression × PState
  | _, 0, s => perr "parse recursion limit exceeded" s
  | .primary, n + 1, s =>
    match cur s with
    | .integer v => pok (.IntegerExpression v) (pnext s)
    | .real v => pok (.RealExpression v) (pnext s)
    | .lparen => run .paren n s
    | .identifier name =>
      match peekTok s with
      | .lparen => run (.callArgs name []) n (pnext (pnext s))
      | _ => pok (.IdentifierExpression name) (pnext s)
    | .plus => run .unaryop n s
    | .minus => run .unaryop n s
    | .minKw => run (.binCall .minKw) n (pnext s)
    | .maxKw => run (.binCall .maxKw) n (pnext s)
    | _ => perr "unexpected token in expression" s
  | .unaryop, n + 1, s =>
    match cur s with
    | .plus => pbind (run .unaryop n (pnext s)) (fun e s' => pok (.UnaryExpression .plus e) s')
    | .minus => pbind (run .unaryop n (pnext s)) (fun e s' => pok (.UnaryExpression .minus e) s')
    | .expKw => run (.unaryFn .expKw) n (pnext s)
    | .logKw => run (.unaryFn .logKw) n (pnext s)
    | .absKw => run (.unaryFn .absKw) n (pnext s)
    | _ => run .primary n s
  | .unaryFn op, n + 1, s =>
    match cur s with
    | .lparen => pbind (run .primary n s) (fun e s' => pok (.UnaryExpression op e) s')
    | _ => perr "expected a parenthesis after unary function" s
  | .binCall op, n + 1, s =>
    match cur s with
    | .lparen =>
      pbind (run (.expr 1) n (pnext s)) (fun a s1 =>
        match cur s1 with
        | .comma =>
          pbind (run (.expr 1) n (pnext s1)) (fun b s2 =>
            match cur s2 with
            | .rparen => pok (.BinaryExpression op a b) (pnext s2)
            | _ => perr "expected a closing parenthesis" s2)
        | _ => perr "expected a comma" s1)
    | _ => perr "expected a parenthesis after min or max" s
  | .expr minPrec, n + 1, s =>
    pbind (run .unaryop n s) (fun lhs s' => run (.exprLoop minPrec lhs) n s')
  | .exprLoop minPrec lhs, n + 1, s =>
    match cur s with
    | .eq => perr "assignment is not allowed in a sub-expression" s
    | t =>
      if binop_precedence t = 0 || binop_precedence t < minPrec then pok lhs s
      else
        pbind
          (run (.expr (if t = tok.pow then binop_precedence t else binop_precedence t + 1)) n
            (pnext s))
          (fun rhs s' => run (.exprLoop minPrec (.BinaryExpression t lhs rhs)) n s')
  | .paren, n + 1, s =>
    match cur s with
    | .lparen =>
      pbind (run (.expr 1) n (pnext s)) (fun e s' =>
        match cur s' with
        | .rparen => pok e (pnext s')
        | _ => perr "missing closing parenthesis" s')
    | _ => perr "expected an opening parenthesis" s
  | .callArgs name acc, n + 1, s =>
    match acc, cur s with
    | [], .rparen => pok (.CallExpression name []) (pnext s)
    | _, _ =>
      pbind (run (.expr 1) n s) (fun arg s' =>
        match cur s' with
        | .comma => run (.callArgs name (acc ++ [arg])) n (pnext s')
        | .rparen => pok (.CallExpression name (acc ++ [arg])) (pnext s')
        | _ => perr "expected a comma or closing parenthesis in call arguments" s')
  | .lineExpr, n + 1, s =>
    match cur s with
    | .identifier name =>
      match peekTok s with
      | .eq =>
        pbind (run (.expr 1) n (pnext (pnext s))) (fun rhs s' =>
          if lineEnd s' then pok (.AssignmentExpression (.IdentifierExpression name) rhs) s'
          else perr "expected a new line after expression" s')
      | .lparen =>
        pbind (run .primary n s) (fun e s' =>
          match cur s' with
          | .eq => perr "the lhs of an assignment must be an lvalue" s'
          | _ =>
            if lineEnd s' then pok e s'
            else perr "expected a new line after expression" s')
      | _ => perr "expected an assignment or a procedure call" s
    | _ => perr "expected an assignment or a procedure call" s
  | .stoichTerm neg, n + 1, s =>
    match cur s with
    | .minus => run (.stoichTerm (!neg)) n (pnext s)
    | .integer v =>
      match cur (pnext s) with
      | .identifier name =>
        pok (.StoichTermExpression (.IntegerExpression (if neg then -v else v))
              (.IdentifierExpression name))
          (pnext (pnext s))
      | _ => perr "expected an identifier in stoichiometric term" (pnext s)
    | .identifier name =>
      pok (.StoichTermExpression (.IntegerExpression (if neg then -1 else 1))
            (.IdentifierExpression name))
        (pnext s)
    | _ => perr "expected an identifier in stoichiometric term" s
  | .stoichExpr, n + 1, s =>
    if stoichFirst (cur s) then
      pbind (run (.stoichTerm false) n s) (fun t s' => run (.stoichLoop [t]) n s')
    else pok (.StoichExpression []) s
  | .stoichLoop acc, n + 1, s =>
    match cur s with
    | .plus =>
      pbind (run (.stoichTerm false) n (pnext s)) (fun t s' =>
        run (.stoichLoop (acc ++ [t])) n s')
    | .minus =>
      pbind (run (.stoichTerm false) n s) (fun t s' =>
        run (.stoichLoop (acc ++ [t])) n s')
    | _ => pok (.StoichExpression acc) s
  | .reaction, n + 1, s =>
    match cur s with
    | .tilde =>
      pbind (run .stoichExpr n (pnext s)) (fun lhs s1 =>
        if stoichAllNonneg lhs then
          match cur s1 with
          | .arrow =>
            pbind (run .stoichExpr n (pnext s1)) (fun rhs s2 =>
              if stoichAllNonneg rhs then
                match cur s2 with
                | .lparen =>
                  pbind (run (.expr 1) n (pnext s2)) (fun fwd s3 =>
                    match cur s3 with
                    | .comma =>
                      pbind (run (.expr 1) n (pnext s3)) (fun rev s4 =>
                        match cur s4 with
                        | .rparen => pok (.ReactionExpression lhs rhs fwd rev) (pnext s4)
                        | _ => perr "expected a closing parenthesis after reaction rates" s4)
                    | _ => perr "expected a comma separating the reaction rates" s3)
                | _ => perr "expected a parenthesised reaction rate pair" s2
              else perr "expected only non-negative terms in reaction" s2)
          | _ => perr "expected the reaction arrow" s1
        else perr "expected only non-negative terms in reaction" s1)
    | _ => perr "expected a tilde at the start of a reaction" s
  | .conserve, n + 1, s =>
    match cur s with
    | .conserveKw =>
      pbind (run .stoichExpr n (pnext s)) (fun lhs s1 =>
        match cur s1 with
        | .eq =>
          pbind (run (.expr 1) n (pnext s1)) (fun rhs s2 =>
            pok (.ConserveExpression lhs rhs) s2)
        | _ => perr "expected an equals sign in CONSERVE statement" s1)
    | _ => perr "expected the CONSERVE keyword" s
  | .solve, _ + 1, s =>
    match cur s with
    | .solveKw =>
      match cur (pnext s) with
      | .identifier name =>
        match cur (pnext (pnext s)) with
        | .methodKw =>
          match cur (pnext (pnext (pnext s))) with
          | .cnexpKw => pok (.SolveExpression name .cnexp) (pnext (pnext (pnext (pnext s))))
          | .sparseKw => pok (.SolveExpression name .sparse) (pnext (pnext (pnext (pnext s))))
          | _ => perr "expected a solver method after METHOD" (pnext (pnext (pnext s)))
        | _ => pok (.SolveExpression name .none) (pnext (pnext s))
      | _ => perr "expected an identifier after SOLVE" (pnext s)
    | _ => perr "expected the SOLVE keyword" s
  | .localDecl, n + 1, s =>
    match cur s with
    | .localKw =>
      match cur (pnext s) with
      | .identifier name => run (.localLoop [name]) n (pnext (pnext s))
      | _ => perr "expected an identifier in LOCAL declaration" (pnext s)
    | _ => perr "expected the LOCAL keyword" s
  | .localLoop acc, n + 1, s =>
    match cur s with
    | .comma =>
      match cur (pnext s) with
      | .identifier name =>
        if acc.contains name then perr "duplicate name in LOCAL declaration" (pnext s)
        else run (.localLoop (acc ++ [name])) n (pnext (pnext s))
      | _ => perr "expected an identifier after comma in LOCAL declaration" (pnext s)
    | _ => pok (.LocalDeclaration acc) s
  | .conductance, _ + 1, s =>
    match cur s with
    | .conductanceKw =>
      match cur (pnext s) with
      | .identifier name =>
        match cur (pnext (pnext s)) with
        | .useionKw =>
          match cur (pnext (pnext (pnext s))) with
          | .identifier ion =>
            match ionKindOf ion with
            | some channel =>
              pok (.ConductanceExpression name channel) (pnext (pnext (pnext (pnext s))))
            | none => perr "unknown ion channel in USEION clause" (pnext (pnext (pnext s)))
          | _ => perr "expected an ion name after USEION" (pnext (pnext (pnext s)))
        | _ => pok (.ConductanceExpression name .nonspecific) (pnext (pnext s))
      | _ => perr "expected a conductance variable name" (pnext s)
    | _ => perr "expected the CONDUCTANCE keyword" s
  | .ifStmt, n + 1, s =>
    match cur s with
    | .ifKw =>
      pbind (run .paren n (pnext s)) (fun condition s1 =>
        pbind (run (.block true) n s1) (fun tb s2 =>
          match cur s2 with
          | .elseKw =>
            match cur (pnext s2) with
            | .ifKw =>
              pbind (run .ifStmt n (pnext s2)) (fun fb s3 =>
                pok (.IfExpression condition tb (some fb)) s3)
            | _ =>
              pbind (run (.block true) n (pnext s2)) (fun fb s3 =>
                pok (.IfExpression condition tb (some fb)) s3)
          | _ => pok (.IfExpression condition tb Option.none) s2))
    | _ => perr "expected the if keyword" s
  | .block nested, n + 1, s =>
    match cur s with
    | .lbrace => run (.blockLoop nested []) n (pnext s)
    | _ => perr "expected an opening brace" s
  | .blockLoop nested acc, n + 1, s =>
    match cur s with
    | .newline => run (.blockLoop nested acc) n (pnext s)
    | .rbrace => pok (.BlockExpression nested acc) (pnext s)
    | _ =>
      pbind (run .statement n s) (fun stmt s' =>
        run (.blockLoop nested (acc ++ [stmt])) n s')
  | .statement, n + 1, s =>
    match cur s with
    | .ifKw => run .ifStmt n s
    | .conductanceKw => run .conductance n s
    | .solveKw => run .solve n s
    | .localKw => run .localDecl n s
    | .conserveKw => run .conserve n s
    | .tilde => run .reaction n s
    | .initialKw => run .initialStmt n s
    | .identifier _ => run .lineExpr n s
    | _ => perr "unexpected token at the start of a statement" s
  | .initialStmt, n + 1, s =>
    match cur s with
    | .initialKw =>
      pbind (run (.block true) n (pnext s)) (fun body s' =>
        pok (.InitialExpression body) s')
    | _ => perr "expected the INITIAL keyword" s
  | .prototype forced, n + 1, s =>
    match forced with
    | some name =>
      match cur s with
      | .lparen => run (.protoArgs name []) n (pnext s)
      | _ => pok (.PrototypeExpression name []) s
    | none =>
      match cur s with
      | .identifier name =>
        match cur (pnext s) with
        | .lparen => run (.protoArgs name []) n (pnext (pnext s))
        | _ => pok (.PrototypeExpression name []) (pnext s)
      | _ => perr "expected an identifier naming the prototype" s
  | .protoArgs name acc, n + 1, s =>
    match acc, cur s with
    | [], .rparen => pok (.PrototypeExpression name []) (pnext s)
    | _, .identifier a =>
      match cur (pnext s) with
      | .comma => run (.protoArgs name (acc ++ [a])) n (pnext (pnext s))
      | .rparen => pok (.PrototypeExpression name (acc ++ [a])) (pnext (pnext s))
      | _ => perr "expected a comma or closing parenthesis in prototype" (pnext s)
    | _, _ => perr "expected an argument identifier in prototype" s
  | .procedure, n + 1, s =>
    match cur s with
    | .procedureKw => run (.procBody Option.none procedureKind.normal) n (pnext s)
    | .kineticKw => run (.procBody Option.none procedureKind.kinetic) n (pnext s)
    | .derivativeKw => run (.procBody Option.none procedureKind.derivative) n (pnext s)
    | .breakpointKw => run (.procBody (some "breakpoint") procedureKind.breakpoint) n (pnext s)
    | .initialKw => run (.procBody (some "initial") procedureKind.initial) n (pnext s)
    | .netReceiveKw => run (.procBody (some "net_receive") procedureKind.net_receive) n (pnext s)
    | _ => perr "expected a procedural block keyword" s
  | .procBody forced kind, n + 1, s =>
    pbind (run (.prototype forced) n s) (fun proto s1 =>
      pbind (run (.block false) n s1) (fun body s2 =>
        match proto with
        | .PrototypeExpression name args =>
          pok (.ProcedureExpression name args body kind) s2
        | _ => perr "malformed prototype" s2))
  | .function, n + 1, s =>
    match cur s with
    | .functionKw =>
      pbind (run (.prototype Option.none) n (pnext s)) (fun proto s1 =>
        pbind (run (.block false) n s1) (fun body s2 =>
          match proto with
          | .PrototypeExpression name args =>
            pok (.FunctionExpression name args body) s2
          | _ => perr "malformed prototype" s2))
    | _ => perr "expected the FUNCTION keyword" s

/-- Initial parser state over a source string. -/
def initState (input : String) : PState :=
  { toks := (lexLoc input).1
    status := lexerStatus.happy
    error_string := ""
    error_location := { line := 0, column := 0 }
    endLoc := (lexLoc input).2 }

/-- Fuel that dominates the depth of any parse of the given state's stream. -/
def parseFuel (s : PState) : Nat := 8 * s.toks.length + 16

/-- `Parser(text).parse_expression()`: full-expression entry point. -/
def parse_expression (input : String) : Option Expression × PState :=
  run (.expr 1) (parseFuel (initState input)) (initState input)

/-- `Parser(text).parse_parenthesis_expression()`. -/
def parse_parenthesis_expression (input : String) : Option Expression × PState :=
  run .paren (parseFuel (initState input)) (initState input)

/-- `Parser(text).parse_line_expression()`. -/
def parse_line_expression (input : String) : Option Expression × PState :=
  run .lineExpr (parseFuel (initState input)) (initState input)

/-- `Parser(text).parse_stoich_term()`. -/
def parse_stoich_term (input : String) : Option Expression × PState :=
  run (.stoichTerm false) (parseFuel (initState input)) (initState input)

/-- `Parser(text).parse_stoich_expression()`. -/
def parse_stoich_expression (input : String) : Option Expression × PState :=
  run .stoichExpr (parseFuel (initState input)) (initState input)

/-- `Parser(text).parse_reaction_expression()`. -/
def parse_reaction_expression (input : String) : Option Expression × PState :=
  run .reaction (parseFuel (initState input)) (initState input)

/-- `Parser(text).parse_conserve_expression()`. -/
def parse_conserve_expression (input : String) : Option Expression × PState :=
  run .conserve (parseFuel (initState input)) (initState input)

/-- `Parser(text).parse_solve()`. -/
def parse_solve (input : String) : Option Expression × PState :=
  run .solve (parseFuel (initState input)) (initState input)

/-- `Parser(text).parse_unaryop()`. -/
def parse_unaryop (input : String) : Option Expression × PState :=
  run .unaryop (parseFuel (initState input)) (initState input)

/-- `Parser(text).parse_primary()`. -/
def parse_primary (input : String) : Option Expression × PState :=
  run .primary (parseFuel (initState input)) (initState input)

/-- `Parser(text).parse_local()`. -/
def parse_local (input : String) : Option Expression × PState :=
  run .localDecl (parseFuel (initState input)) (initState input)

/-- `Parser(text).parse_conductance()`. -/
def parse_conductance (input : String) : Option Expression × PState :=
  run .conductance (parseFuel (initState input)) (initState input)

/-- `Parser(text).parse_if()`. -/
def parse_if (input : String) : Option Expression × PState :=
  run .ifStmt (parseFuel (initState input)) (initState input)

/-- `Parser(text).parse_statement()`. -/
def parse_statement (input : String) : Option Expression × PState :=
  run .statement (parseFuel (initState input)) (initState input)

/-- `Parser(text).parse_block(nested)`. -/
def parse_block (nested : Bool) (input : String) : Option Expression × PState :=
  run (.block nested) (parseFuel (initState input)) (initState input)

/-- `Parser(text).parse_initial()`. -/
def parse_initial (input : String) : Option Expression × PState :=
  run .initialStmt (parseFuel (initState input)) (initState input)

/-- `Parser(text).parse_procedure()` (handles `PROCEDURE`, `KINETIC`,
`DERIVATIVE`, `BREAKPOINT`, `INITIAL` and `NET_RECEIVE` headers). -/
def parse_procedure (input : String) : Option Expression × PState :=
  run .procedure (parseFuel (initState input)) (initState input)

/-- `Parser(text).parse_function()`. -/
def parse_function (input : String) : Option Expression × PState :=
  run .function (parseFuel (initState input)) (initState input)

/-- Body loop of the `STATE { id (unit)? … }` block: accumulates the
declared state variables with their optional unit.
Modelled from the spec: §4.2 pass-1 `STATE` block; the C++
`parse_state_block` mutates the Module, so the recorded variable list is
returned to make the null-on-failure behaviour observable. -/
def stateVars : Nat → List (String × Option String) → PState →
    Option (List (String × Option String)) × PState
  | 0, _, s => perr "parse recursion limit exceeded" s
  | n + 1, acc, s =>
    match cur s with
    | .newline => stateVars n acc (pnext s)
    | .rbrace => pok acc (pnext s)
    | .identifier name =>
      match cur (pnext s) with
      | .lparen =>
        match cur (pnext (pnext s)) with
        | .identifier u =>
          match cur (pnext (pnext (pnext s))) with
          | .rparen => stateVars n (acc ++ [(name, some u)]) (pnext (pnext (pnext (pnext s))))
          | _ => perr "expected a closing parenthesis after unit" (pnext (pnext (pnext s)))
        | _ => perr "expected a unit identifier" (pnext (pnext s))
      | _ => stateVars n (acc ++ [(name, Option.none)]) (pnext s)
    | _ => perr "unexpected token in STATE block" s

/-- `Parser(text).parse_state_block()`. -/
def parse_state_block (input : String) : Option (List (String × Option String)) × PState :=
  let s := initState input
  match cur s with
  | .stateKw =>
    match cur (pnext s) with
    | .lbrace => stateVars (parseFuel s) [] (pnext (pnext s))
    | _ => perr "expected an opening brace after STATE" (pnext s)
  | _ => perr "expected the STATE keyword" s

/-- Numeric evaluation of a parsed arithmetic tree, as the test suite's
`eval` helper (`test_parser.cpp`): numbers evaluate to themselves, binary
`+ - * / ^ min max` and unary `+ -` recurse, everything else is undefined
(`NaN` in the C++ helper, `none` here).  Exponents must be non-negative
integers for the exact rational semantics. -/
def eval : Expression → Option ℚ
  | .IntegerExpression v => some (v : ℚ)
  | .RealExpression d => some d.toRat
  | .UnaryExpression op e =>
    match eval e, op with
    | some v, .plus => some v
    | some v, .minus => some (-v)
    | _, _ => Option.none
  | .BinaryExpression op l r =>
    match eval l, eval r with
    | some a, some b =>
      match op with
      | .plus => some (a + b)
      | .minus => some (a - b)
      | .times => some (a * b)
      | .divide => some (a / b)
      | .pow => if b.den = 1 ∧ 0 ≤ b.num then some (a ^ b.num.toNat) else Option.none
      | .minKw => some (min a b)
      | .maxKw => some (max a b)
      | _ => Option.none
    | _, _ => Option.none
  | _ => Option.none

/-! ## The error-reporting invariant

The parser records the first failure and unwinds producing null; a non-null
result leaves the status happy.  `GoodRes` states that for one parse result;
`run_good` proves it for every control point, every fuel and every state. -/

/-- A parse result is well-formed when it is non-null exactly if the final
recorded status is happy. -/
def GoodRes {α : Type} (r : Option α × PState) : Prop :=
  r.1.isSome = true ↔ r.2.status = lexerStatus.happy

theorem goodRes_pok {α : Type} (a : α) (s : PState) (h : s.status = lexerStatus.happy) :
    GoodRes (pok a s) := by
  simp [GoodRes, pok, h]

theorem goodRes_perr {α : Type} (msg : String) (s : PState) :
    GoodRes (perr (α := α) msg s) := by
  simp [GoodRes, perr]

theorem goodRes_pbind {α β : Type} (m : Option α × PState)
    (f : α → PState → Option β × PState)
    (hm : GoodRes m)
    (hf : ∀ e s, s.status = lexerStatus.happy → GoodRes (f e s)) :
    GoodRes (pbind m f) := by
  rcases m with ⟨o, s⟩
  cases o with
  | none => simpa [GoodRes, pbind] using hm
  | some e =>
    have hs : s.status = lexerStatus.happy := by simpa [GoodRes] using hm
    simpa [pbind] using hf e s hs

theorem pnext_status (s : PState) : (pnext s).status = s.status := rfl

/-- The remaining token stream contains no `ERROR` token (the input had no
lexical error beyond the already-consumed prefix). -/
def noErrTok (s : PState) : Prop := ∀ p ∈ s.toks, p.1 ≠ tok.errTok

theorem noErrTok_pnext {s : PState} (h : noErrTok s) : noErrTok (pnext s) :=
  fun p hp => h p (List.drop_subset 1 s.toks hp)

/-- A parse result whose final stream still contains no `ERROR` token. -/
def CleanRes {α : Type} (r : Option α × PState) : Prop := noErrTok r.2

theorem cleanRes_pok {α : Type} (a : α) (s : PState) (h : noErrTok s) :
    CleanRes (pok a s) := h

theorem cleanRes_perr {α : Type} (msg : String) (s : PState) (h : noErrTok s) :
    CleanRes (perr (α := α) msg s) := h

theorem cleanRes_pbind {α β : Type} (m : Option α × PState)
    (f : α → PState → Option β × PState)
    (hm : CleanRes m)
    (hf : ∀ e s, noErrTok s → CleanRes (f e s)) :
    CleanRes (pbind m f) := by
  rcases m with ⟨o, s⟩
  cases o with
  | none => exact hm
  | some e => exact hf e s hm

/-- On a stream without `ERROR` tokens the current token is never the
`ERROR` token (an exhausted stream stands for `EOF`). -/
theorem cur_ne_err_of_noErrTok (s : PState) (h : noErrTok s) : cur s ≠ tok.errTok := by
  unfold cur
  cases htoks : s.toks with
  | nil => simp
  | cons p l =>
    have hp := h p (by rw [htoks]; exact List.mem_cons_self p l)
    simpa using hp

/-- When the buffered token is not the `ERROR` token, the observable status
is exactly the recorded status flag. -/
theorem pstatus_of_not_err (s : PState) (h : cur s ≠ tok.errTok) : pstatus s = s.status := by
  cases hst : s.status with
  | happy => simp [pstatus, hst, h]
  | error => simp [pstatus, hst]

/-- Every control point of the parser maps a happy input state to a
well-formed result: null exactly on error status. -/
theorem run_good (fuel : Nat) :
    ∀ (t : PFn) (s : PState), s.status = lexerStatus.happy → GoodRes (run t fuel s) := by
  induction fuel with
  | zero =>
    intro t s _
    cases t <;> exact goodRes_perr _ _
  | succ n ih =>
    intro t s h
    cases t <;> simp only [run] <;>
      repeat
        first
        | exact goodRes_perr _ _
        | exact goodRes_pok _ _ h
        | exact ih _ _ h
        | (refine goodRes_pbind _ _ (ih _ _ h) ?_
           intro e s' hs'
           repeat
             first
             | exact goodRes_perr _ _
             | exact goodRes_pok _ _ hs'
             | exact ih _ _ hs'
             | (refine goodRes_pbind _ _ (ih _ _ hs') ?_
                intro e2 s2 hs2
                repeat
                  first
                  | exact goodRes_perr _ _
                  | exact goodRes_pok _ _ hs2
                  | exact ih _ _ hs2
                  | (refine goodRes_pbind _ _ (ih _ _ hs2) ?_
                     intro e3 s3 hs3
                     repeat
                       first
                       | exact goodRes_perr _ _
                       | exact goodRes_pok _ _ hs3
                       | exact ih _ _ hs3
                       | (refine goodRes_pbind _ _ (ih _ _ hs3) ?_
                          intro e4 s4 hs4
                          repeat
                            first
                            | exact goodRes_perr _ _
                            | exact goodRes_pok _ _ hs4
                            | exact ih _ _ hs4
                            | split)
                       | split)
                  | split)
             | split)
        | split

set_option maxHeartbeats 4000000 in
/-- Every control point of the parser maps a state whose remaining stream
has no `ERROR` token to a result state whose stream has none either: no
grammar rule ever consumes past an `ERROR` token. -/
theorem run_clean (fuel : Nat) :
    ∀ (t : PFn) (s : PState), noErrTok s → CleanRes (run t fuel s) := by
  induction fuel with
  | zero =>
    intro t s h
    cases t <;> exact cleanRes_perr _ _ h
  | succ n ih =>
    intro t s h
    cases t <;> simp only [run] <;>
      repeat
        first
        | exact cleanRes_perr _ _ (by repeat first | assumption | apply noErrTok_pnext)
        | exact cleanRes_pok _ _ (by repeat first | assumption | apply noErrTok_pnext)
        | exact ih _ _ (by repeat first | assumption | apply noErrTok_pnext)
        | (refine cleanRes_pbind _ _
             (ih _ _ (by repeat first | assumption | apply noErrTok_pnext)) ?_
           intro e s' hs'
           repeat
             first
             | exact cleanRes_perr _ _ (by repeat first | assumption | apply noErrTok_pnext)
             | exact cleanRes_pok _ _ (by repeat first | assumption | apply noErrTok_pnext)
             | exact ih _ _ (by repeat first | assumption | apply noErrTok_pnext)
             | (refine cleanRes_pbind _ _
                  (ih _ _ (by repeat first | assumption | apply noErrTok_pnext)) ?_
                intro e2 s2 hs2
                repeat
                  first
                  | exact cleanRes_perr _ _
                      (by repeat first | assumption | apply noErrTok_pnext)
                  | exact cleanRes_pok _ _
                      (by repeat first | assumption | apply noErrTok_pnext)
                  | exact ih _ _ (by repeat first | assumption | apply noErrTok_pnext)
                  | (refine cleanRes_pbind _ _
                       (ih _ _ (by repeat first | assumption | apply noErrTok_pnext)) ?_
                     intro e3 s3 hs3
                     repeat
                       first
                       | exact cleanRes_perr _ _
                           (by repeat first | assumption | apply noErrTok_pnext)
                       | exact cleanRes_pok _ _
                           (by repeat first | assumption | apply noErrTok_pnext)
                       | exact ih _ _
                           (by repeat first | assumption | apply noErrTok_pnext)
                       | (refine cleanRes_pbind _ _
                            (ih _ _
                              (by repeat first | assumption | apply noErrTok_pnext)) ?_
                          intro e4 s4 hs4
                          repeat
                            first
                            | exact cleanRes_perr _ _
                                (by repeat first | assumption | apply noErrTok_pnext)
                            | exact cleanRes_pok _ _
                                (by repeat first | assumption | apply noErrTok_pnext)
                            | exact ih _ _
                                (by repeat first | assumption | apply noErrTok_pnext)
                            | split)
                       | split)
                  | split)
             | split)
        | split

/-- The `STATE`-block body loop maps a happy state to a well-formed result:
null exactly on error status. -/
theorem stateVars_good (fuel : Nat) :
    ∀ (acc : List (String × Option String)) (s : PState),
      s.status = lexerStatus.happy → GoodRes (stateVars fuel acc s) := by
  induction fuel with
  | zero => intro acc s _; exact goodRes_perr _ _
  | succ n ih =>
    intro acc s h
    simp only [stateVars]
    repeat
      first
      | exact goodRes_perr _ _
      | exact goodRes_pok _ _ h
      | exact ih _ _ h
      | split

/-- The `STATE`-block body loop never consumes past an `ERROR` token. -/
theorem stateVars_clean (fuel : Nat) :
    ∀ (acc : List (String × Option String)) (s : PState),
      noErrTok s → CleanRes (stateVars fuel acc s) := by
  induction fuel with
  | zero => intro acc s h; exact cleanRes_perr _ _ h
  | succ n ih =>
    intro acc s h
    simp only [stateVars]
    repeat
      first
      | exact cleanRes_perr _ _ (by repeat first | assumption | apply noErrTok_pnext)
      | exact cleanRes_pok _ _ (by repeat first | assumption | apply noErrTok_pnext)
      | exact ih _ _ (by repeat first | assumption | apply noErrTok_pnext)
      | split

/-- `parse_state_block` is null exactly on error status. -/
theorem parse_state_block_good (input : String) : GoodRes (parse_state_block input) := by
  simp only [parse_state_block]
  repeat
    first
    | exact goodRes_perr _ _
    | exact stateVars_good _ _ _ rfl
    | split

/-- A stream without lexical errors gives an initial state without `ERROR`
tokens. -/
theorem initState_noErrTok (input : String) (h : tok.errTok ∉ lex input) :
    noErrTok (initState input) := fun p hp hpe =>
  h (List.mem_map.mpr ⟨p, hp, by rw [hpe]⟩)

/-- `parse_state_block` on a lexically clean input leaves a clean stream. -/
theorem parse_state_block_clean (input : String) (h : noErrTok (initState input)) :
    CleanRes (parse_state_block input) := by
  simp only [parse_state_block]
  repeat
    first
    | exact cleanRes_perr _ _ (by repeat first | assumption | apply noErrTok_pnext)
    | exact stateVars_clean _ _ _ (by repeat first | assumption | apply noErrTok_pnext)
    | split

/-- On a lexically clean input, every control point's parse is non-null
exactly when the observable `Parser::status()` is happy. -/
theorem run_pstatus (t : PFn) (input : String) (h : tok.errTok ∉ lex input) :
    ((run t (parseFuel (initState input)) (initState input)).1.isSome = true
      ↔ pstatus (run t (parseFuel (initState input)) (initState input)).2
          = lexerStatus.happy) := by
  have hg := run_good (parseFuel (initState input)) t (initState input) rfl
  have hc := run_clean (parseFuel (initState input)) t (initState input)
    (initState_noErrTok input h)
  rw [pstatus_of_not_err _ (cur_ne_err_of_noErrTok _ hc)]
  exact hg

/-- On a lexically clean input, `parse_state_block` is non-null exactly when
the observable `Parser::status()` is happy. -/
theorem state_block_pstatus (input : String) (h : tok.errTok ∉ lex input) :
    ((parse_state_block input).1.isSome = true
      ↔ pstatus (parse_state_block input).2 = lexerStatus.happy) := by
  have hg := parse_state_block_good input
  have hc := parse_state_block_clean input (initState_noErrTok input h)
  rw [pstatus_of_not_err _ (cur_ne_err_of_noErrTok _ hc)]
  exact hg

end Modcc

namespace Multicore

/-- Per-ion state of the multicore backend (`arb::multicore::ion_state`),
with the NMODL ion variables: `iX_` current density, `eX_` reversal
potential, `Xi_`/`Xo_` internal/external concentration, their reset weights,
the ionic charge and the default concentrations.  Values are modelled as
exact rationals in place of the C++ `double`s. -/
structure ion_state where
  iX_ : List ℚ
  eX_ : List ℚ
  Xi_ : List ℚ
  Xo_ : List ℚ
  weight_Xi_ : List ℚ
  weight_Xo_ : List ℚ
  charge : Int
  default_int_concentration : ℚ
  default_ext_concentration : ℚ

/-- Modelled from the spec: the scalar Nernst reversal-potential formula of
`ion_state::nernst` is not among the provided sources (only its declaration
and doc comment "Calculate the reversal potential eX (mV) using Nernst
equation" are), and its exact form involves a transcendental logarithm.  The
verified statements therefore hold for an arbitrary function of the data the
equation depends on: the ionic charge, the temperature (K), and the internal
and external concentrations. -/
structure nernstKernel where
  E : Int → ℚ → ℚ → ℚ → ℚ

/-- `ion_state::zero_current()`: set ionic current density to zero.
Modelled from the spec: the implementation is not among the provided
sources, only the declaration and its doc comment are. -/
def ion_state.zero_current (s : ion_state) : ion_state :=
  { s with iX_ := s.iX_.map (fun _ => 0) }

/-- `ion_state::init_concentration()`: set ion concentrations to the
weighted proportion of the default concentrations.
Modelled from the spec: the implementation is not among the provided
sources, only the declaration and its doc comment are. -/
def ion_state.init_concentration (s : ion_state) : ion_state :=
  { s with
    Xi_ := s.weight_Xi_.map (fun w => w * s.default_int_concentration)
    Xo_ := s.weight_Xo_.map (fun w => w * s.default_ext_concentration) }

/-- `ion_state::nernst(temperature_K)`: recompute every reversal potential
from the Nernst equation at the given temperature and the current
concentrations.
Modelled from the spec: the loop body applies the (abstracted) scalar
formula to each instance's concentration pair. -/
def ion_state.nernst (k : nernstKernel) (s : ion_state) (temperature_K : ℚ) : ion_state :=
  { s with eX_ := (s.Xi_.zip s.Xo_).map (fun p => k.E s.charge temperature_K p.1 p.2) }

/-- `ion_state::reset(temperature_K)`, exactly as its inline definition in
the multicore backend header: `zero_current(); init_concentration();
nernst(temperature_K);` in that order. -/
def ion_state.reset (k : nernstKernel) (s : ion_state) (temperature_K : ℚ) : ion_state :=
  ion_state.nernst k (ion_state.init_concentration (ion_state.zero_current s)) temperature_K

/-- The shared simulation state (`arb::multicore::shared_state`), restricted
to the fields the verified claims mention. -/
structure shared_state where
  voltage : List ℚ
  temperature_degC : ℚ
  ion_data : List (String × ion_state)

/-- `shared_state::reset(initial_voltage, temperature_K)`.
Modelled from the spec: the implementation is not among the provided
sources; its declaration and the unit test `test_mech_temperature.cpp` show
it reinitialises the voltage, stores the temperature in Celsius, and resets
every ion state at the given temperature. -/
def shared_state.reset (k : nernstKernel) (st : shared_state)
    (initial_voltage temperature_K : ℚ) : shared_state :=
  { st with
    voltage := st.voltage.map (fun _ => initial_voltage)
    temperature_degC := temperature_K - 5463 / 20
    ion_data := st.ion_data.map (fun p => (p.1, ion_state.reset k p.2 temperature_K)) }

end Multicore

/-! ## Claim theorems -/

open Modcc Multicore

/-- Manual equation lemma for `eval` on integer literals (the automatic
equations are not generated for the nested inductive). -/
theorem eval_integer (v : Int) : eval (.IntegerExpression v) = some (v : ℚ) := rfl

/-- Manual equation lemma for `eval` on real literals. -/
theorem eval_real (d : decimal) : eval (.RealExpression d) = some d.toRat := rfl

/-- Manual equation lemma for `eval` on binary expressions. -/
theorem eval_binary (op : tok) (l r : Expression) :
    eval (.BinaryExpression op l r) =
      match eval l, eval r with
      | some a, some b =>
        match op with
        | .plus => some (a + b)
        | .minus => some (a - b)
        | .times => some (a * b)
        | .divide => some (a / b)
        | .pow => if b.den = 1 ∧ 0 ≤ b.num then some (a ^ b.num.toNat) else Option.none
        | .minKw => some (min a b)
        | .maxKw => some (max a b)
        | _ => Option.none
      | _, _ => Option.none := rfl

/-- C1: `^` is right-associative and binds tighter than `*` and `/`:
`"2^3^2"` parses as `BinaryExpr(^, 2, BinaryExpr(^, 3, 2))` which evaluates
to 512, `"(2^2)^3"` evaluates to 64, `"3^2*5."` groups the power under the
product, and `"3./2^7."` groups the power under the division (3/128).  The
precedence-climbing loop itself is the `exprLoop` branch of `run`, which
recurses at precedence `p+1`, or `p` for the right-associative `^`. -/
theorem C1_caret_right_associative :
    (parse_expression "2^3^2").1 =
      some (.BinaryExpression .pow (.IntegerExpression 2)
        (.BinaryExpression .pow (.IntegerExpression 3) (.IntegerExpression 2)))
    ∧ eval (.BinaryExpression .pow (.IntegerExpression 2)
        (.BinaryExpression .pow (.IntegerExpression 3) (.IntegerExpression 2))) = some 512
    ∧ (parse_expression "(2^2)^3").1 =
      some (.BinaryExpression .pow
        (.BinaryExpression .pow (.IntegerExpression 2) (.IntegerExpression 2))
        (.IntegerExpression 3))
    ∧ eval (.BinaryExpression .pow
        (.BinaryExpression .pow (.IntegerExpression 2) (.IntegerExpression 2))
        (.IntegerExpression 3)) = some 64
    ∧ (parse_expression "3^2*5.").1 =
      some (.BinaryExpression .times
        (.BinaryExpression .pow (.IntegerExpression 3) (.IntegerExpression 2))
        (.RealExpression ⟨5, 0⟩))
    ∧ (parse_expression "3./2^7.").1 =
      some (.BinaryExpression .divide (.RealExpression ⟨3, 0⟩)
        (.BinaryExpression .pow (.IntegerExpression 2) (.RealExpression ⟨7, 0⟩)))
    ∧ eval (.BinaryExpression .divide (.RealExpression ⟨3, 0⟩)
        (.BinaryExpression .pow (.IntegerExpression 2) (.RealExpression ⟨7, 0⟩)))
      = some (3 / 128) := by
  refine ⟨rfl, ?_, rfl, ?_, rfl, rfl, ?_⟩
  · simp [eval_binary, eval_integer]
    norm_num
  · simp [eval_binary, eval_integer]
    norm_num
  · simp [eval_binary, eval_real, eval_integer, decimal.toRat]
    norm_num

/-- C2: a stoichiometric coefficient must lex as an integer literal:
`"0A"` and `"12A"` are accepted with coefficients 0 and 12, a leading minus
makes the term negative (`"-12A"`), while `"0.2A"` and `"3e2"` are rejected
with an error because they lex as reals — in particular `"3e2"` lexes as the
single real token of value 300, not as integer 3 followed by identifier
`e2`. -/
theorem C2_stoich_coefficient_must_be_integer :
    lex "3e2" = [tok.real ⟨3, 2⟩]
    ∧ decimal.toRat ⟨3, 2⟩ = 300
    ∧ lex "0.2A" = [tok.real ⟨2, -1⟩, tok.identifier "A"]
    ∧ (parse_stoich_term "0A").1 =
        some (.StoichTermExpression (.IntegerExpression 0) (.IdentifierExpression "A"))
    ∧ (parse_stoich_term "12A").1 =
        some (.StoichTermExpression (.IntegerExpression 12) (.IdentifierExpression "A"))
    ∧ (parse_stoich_term "-12A").1 =
        some (.StoichTermExpression (.IntegerExpression (-12)) (.IdentifierExpression "A"))
    ∧ negativeTerm
        (.StoichTermExpression (.IntegerExpression (-12)) (.IdentifierExpression "A")) = true
    ∧ (parse_stoich_term "0.2A").1 = none
    ∧ (parse_stoich_term "0.2A").2.status = lexerStatus.error
    ∧ (parse_stoich_term "3e2").1 = none
    ∧ (parse_stoich_term "3e2").2.status = lexerStatus.error := by
  refine ⟨rfl, ?_, rfl, rfl, rfl, rfl, rfl, rfl, rfl, rfl, rfl⟩
  norm_num [decimal.toRat]

/-- C3 counterexample: the claim asserts that every parse returning a
non-null result leaves the status happy, and that error status always comes
with a null result.  Both fail on a lexical error scanned into the
single-token lookahead buffer: `"x$"` lexes as the identifier `x` followed
by the `ERROR` token; `parse_expression` completes, returning the non-null
identifier node after having scanned the unrecognised character — observable
status error with a non-null result. -/
theorem C3_counterexample_lookahead_lexical_error :
    lex "x$" = [tok.identifier "x", tok.errTok]
    ∧ (parse_expression "x$").1 = some (.IdentifierExpression "x")
    ∧ pstatus (parse_expression "x$").2 = lexerStatus.error :=
  ⟨rfl, rfl, rfl⟩

/-- C3 (amended): on every grammar entry point, a syntactic failure records
the error message with its location, sets the status to error and produces
null; and for every input free of lexical errors, a parse returns a
non-null result exactly when the observable status is happy (so error
status returns null).  A lexical error scanned into the lookahead buffer is
excepted: it can leave a completed non-null parse with status error.  The
concrete conjuncts show the recorded `(message, Location)` pair: the
offending `)` of `"x=)y + 2 * z"` at line 1 column 3, and the incomplete
right-hand side of a two-line procedure failing at line 2 column 10. -/
theorem C3_error_discipline :
    (∀ input : String, tok.errTok ∉ lex input →
      (((parse_expression input).1.isSome = true
        ↔ pstatus (parse_expression input).2 = lexerStatus.happy)
      ∧ ((parse_parenthesis_expression input).1.isSome = true
        ↔ pstatus (parse_parenthesis_expression input).2 = lexerStatus.happy)
      ∧ ((parse_unaryop input).1.isSome = true
        ↔ pstatus (parse_unaryop input).2 = lexerStatus.happy)
      ∧ ((parse_primary input).1.isSome = true
        ↔ pstatus (parse_primary input).2 = lexerStatus.happy)
      ∧ ((parse_line_expression input).1.isSome = true
        ↔ pstatus (parse_line_expression input).2 = lexerStatus.happy)
      ∧ ((parse_statement input).1.isSome = true
        ↔ pstatus (parse_statement input).2 = lexerStatus.happy)
      ∧ (∀ nested : Bool, (parse_block nested input).1.isSome = true
        ↔ pstatus (parse_block nested input).2 = lexerStatus.happy)
      ∧ ((parse_initial input).1.isSome = true
        ↔ pstatus (parse_initial input).2 = lexerStatus.happy)
      ∧ ((parse_local input).1.isSome = true
        ↔ pstatus (parse_local input).2 = lexerStatus.happy)
      ∧ ((parse_solve input).1.isSome = true
        ↔ pstatus (parse_solve input).2 = lexerStatus.happy)
      ∧ ((parse_conductance input).1.isSome = true
        ↔ pstatus (parse_conductance input).2 = lexerStatus.happy)
      ∧ ((parse_if input).1.isSome = true
        ↔ pstatus (parse_if input).2 = lexerStatus.happy)
      ∧ ((parse_stoich_term input).1.isSome = true
        ↔ pstatus (parse_stoich_term input).2 = lexerStatus.happy)
      ∧ ((parse_stoich_expression input).1.isSome = true
        ↔ pstatus (parse_stoich_expression input).2 = lexerStatus.happy)
      ∧ ((parse_reaction_expression input).1.isSome = true
        ↔ pstatus (parse_reaction_expression input).2 = lexerStatus.happy)
      ∧ ((parse_conserve_expression input).1.isSome = true
        ↔ pstatus (parse_conserve_expression input).2 = lexerStatus.happy)
      ∧ ((parse_procedure input).1.isSome = true
        ↔ pstatus (parse_procedure input).2 = lexerStatus.happy)
      ∧ ((parse_function input).1.isSome = true
        ↔ pstatus (parse_function input).2 = lexerStatus.happy)
      ∧ ((parse_state_block input).1.isSome = true
        ↔ pstatus (parse_state_block input).2 = lexerStatus.happy)))
    ∧ (parse_line_expression "x=)y + 2 * z").1 = none
    ∧ (parse_line_expression "x=)y + 2 * z").2.status = lexerStatus.error
    ∧ (parse_line_expression "x=)y + 2 * z").2.error_string = "unexpected token in expression"
    ∧ (parse_line_expression "x=)y + 2 * z").2.error_location = { line := 1, column := 3 }
    ∧ (parse_procedure "PROCEDURE foo(x) \x7b\n  a = 3 +\n\x7d").1 = none
    ∧ (parse_procedure "PROCEDURE foo(x) \x7b\n  a = 3 +\n\x7d").2.status = lexerStatus.error
    ∧ (parse_procedure "PROCEDURE foo(x) \x7b\n  a = 3 +\n\x7d").2.error_location =
        { line := 2, column := 10 } := by
  refine ⟨fun input h => ?_, rfl, rfl, rfl, rfl, rfl, rfl, rfl⟩
  exact ⟨run_pstatus _ input h, run_pstatus _ input h, run_pstatus _ input h,
    run_pstatus _ input h, run_pstatus _ input h, run_pstatus _ input h,
    fun nested => run_pstatus (.block nested) input h, run_pstatus _ input h,
    run_pstatus _ input h, run_pstatus _ input h, run_pstatus _ input h,
    run_pstatus _ input h, run_pstatus _ input h, run_pstatus _ input h,
    run_pstatus _ input h, run_pstatus _ input h, run_pstatus _ input h,
    run_pstatus _ input h, state_block_pstatus input h⟩

/-- Witness for C3 (amended): the clean-input hypothesis holds at the
concrete input `"2+3"`, and the theorem applied there gives the
non-null-iff-happy equivalence for `parse_expression`. -/
theorem C3_error_discipline_witness :
    tok.errTok ∉ lex "2+3"
    ∧ ((parse_expression "2+3").1.isSome = true
        ↔ pstatus (parse_expression "2+3").2 = lexerStatus.happy) :=
  ⟨by decide, (C3_error_discipline.1 "2+3" (by decide)).1⟩

/-- C4: `parse_reaction_expression` accepts the two-directional form
`~ stoich <-> stoich ( fwd_expr , rev_expr )`:
`"~ A + B <-> C + D (k1, k2)"` parses to the full `ReactionExpr`, while the
one-directional `"~ A <- B (k1)"` and `"~ A -> B (k2)"`, the tilde-less
`"  A <-> B (k1, k2)"`, and the single-rate `"~ A + B <-> C + D (k1)"` are
all rejected with an error and a null result. -/
theorem C4_reaction_exact_form :
    (parse_reaction_expression "~ A + B <-> C + D (k1, k2)").1 =
      some (.ReactionExpression
        (.StoichExpression
          [.StoichTermExpression (.IntegerExpression 1) (.IdentifierExpression "A"),
           .StoichTermExpression (.IntegerExpression 1) (.IdentifierExpression "B")])
        (.StoichExpression
          [.StoichTermExpression (.IntegerExpression 1) (.IdentifierExpression "C"),
           .StoichTermExpression (.IntegerExpression 1) (.IdentifierExpression "D")])
        (.IdentifierExpression "k1") (.IdentifierExpression "k2"))
    ∧ (parse_reaction_expression "~ A + B <-> C + D (k1, k2)").2.status = lexerStatus.happy
    ∧ (parse_reaction_expression "~ A <- B (k1)").1 = none
    ∧ (parse_reaction_expression "~ A <- B (k1)").2.status = lexerStatus.error
    ∧ (parse_reaction_expression "~ A -> B (k2)").1 = none
    ∧ (parse_reaction_expression "~ A -> B (k2)").2.status = lexerStatus.error
    ∧ (parse_reaction_expression "  A <-> B (k1, k2)").1 = none
    ∧ (parse_reaction_expression "  A <-> B (k1, k2)").2.status = lexerStatus.error
    ∧ (parse_reaction_expression "~ A + B <-> C + D (k1)").1 = none
    ∧ (parse_reaction_expression "~ A + B <-> C + D (k1)").2.status = lexerStatus.error :=
  ⟨rfl, rfl, rfl, rfl, rfl, rfl, rfl, rfl, rfl, rfl⟩

/-- C5: `parse_conserve_expression` accepts `CONSERVE stoich = expr` with a
possibly empty left-hand side: `"CONSERVE = 0"` yields a `StoichExpr` with
zero terms, and `"CONSERVE -2a + b -c = foo*2.3-bar"` yields left-hand
integer coefficients −2, +1, −1 in that order with a `BinaryExpr(-)`
right-hand side. -/
theorem C5_conserve_stoich_eq_expr :
    (parse_conserve_expression "CONSERVE = 0").1 =
      some (.ConserveExpression (.StoichExpression []) (.IntegerExpression 0))
    ∧ (parse_conserve_expression "CONSERVE -2a + b -c = foo*2.3-bar").1 =
      some (.ConserveExpression
        (.StoichExpression
          [.StoichTermExpression (.IntegerExpression (-2)) (.IdentifierExpression "a"),
           .StoichTermExpression (.IntegerExpression 1) (.IdentifierExpression "b"),
           .StoichTermExpression (.IntegerExpression (-1)) (.IdentifierExpression "c")])
        (.BinaryExpression .minus
          (.BinaryExpression .times (.IdentifierExpression "foo")
            (.RealExpression ⟨23, -1⟩))
          (.IdentifierExpression "bar"))) :=
  ⟨rfl, rfl⟩

/-- C6: assignment is permitted only at statement level: the input
`"(x=3)"` given to `parse_parenthesis_expression` is rejected with an error
(null result, error status, the sub-expression assignment diagnostic),
whereas an ordinary parenthesised expression is accepted. -/
theorem C6_no_assignment_inside_parentheses :
    (parse_parenthesis_expression "(x=3)          ").1 = none
    ∧ (parse_parenthesis_expression "(x=3)          ").2.status = lexerStatus.error
    ∧ (parse_parenthesis_expression "(x=3)          ").2.error_string =
        "assignment is not allowed in a sub-expression"
    ∧ (parse_parenthesis_expression "(x+2)                  ").1.isSome = true :=
  ⟨rfl, rfl, rfl, rfl⟩

/-- C7 counterexample: the claim asserts that a bare non-call expression
line such as `"foo+8"` is accepted by `parse_line_expression`; in fact the
parser rejects it — the result is null and the status error (the unit test
lists `"foo+8"` among the failing inputs, commented "missing assignment"). -/
theorem C7_counterexample_bare_expression_line :
    (parse_line_expression "foo+8       ").1 = none
    ∧ (parse_line_expression "foo+8       ").2.status = lexerStatus.error :=
  ⟨rfl, rfl⟩

/-- C7 (amended): a statement line that is not one of the keyword forms is a
line expression consisting of an assignment or a procedure call, terminated
by newline: the call line `"foo(x+3, y, bar(21.4))"` and the assignment
`"x=2"` are accepted, while a bare non-call expression line such as
`"foo+8"` is rejected with an error. -/
theorem C7_line_expression_assignment_or_call :
    (parse_line_expression "foo(x+3, y, bar(21.4))").1 =
      some (.CallExpression "foo"
        [.BinaryExpression .plus (.IdentifierExpression "x") (.IntegerExpression 3),
         .IdentifierExpression "y",
         .CallExpression "bar" [.RealExpression ⟨214, -1⟩]])
    ∧ (parse_line_expression "x=2").1 =
      some (.AssignmentExpression (.IdentifierExpression "x") (.IntegerExpression 2))
    ∧ (parse_line_expression "foo+8").1 = none
    ∧ (parse_line_expression "foo+8").2.status = lexerStatus.error :=
  ⟨rfl, rfl, rfl, rfl⟩

/-- C8: `parse_solve` on `"SOLVE states METHOD cnexp"` returns a `SolveExpr`
with name `states` and method `cnexp`, and on `"SOLVE states"` (METHOD
clause omitted) one with method `none`. -/
theorem C8_solve_with_and_without_method :
    (parse_solve "SOLVE states METHOD cnexp").1 =
      some (.SolveExpression "states" solverMethod.cnexp)
    ∧ (parse_solve "SOLVE states METHOD cnexp").2.status = lexerStatus.happy
    ∧ (parse_solve "SOLVE states").1 = some (.SolveExpression "states" solverMethod.none)
    ∧ (parse_solve "SOLVE states").2.status = lexerStatus.happy :=
  ⟨rfl, rfl, rfl, rfl⟩

/-- C9: `parse_line_expression` rejects compound assignment operators: on
`"x/=3"` (which lexes as `x / = 3`) it returns null and sets the status to
error, since only the plain `=` assignment is supported. -/
theorem C9_compound_assignment_rejected :
    lex "x/=3" = [tok.identifier "x", tok.divide, tok.eq, tok.integer 3]
    ∧ (parse_line_expression "x/=3        ").1 = none
    ∧ (parse_line_expression "x/=3        ").2.status = lexerStatus.error :=
  ⟨rfl, rfl, rfl⟩

/-- C10: `ion_state::reset(temperature_K)` performs `zero_current()`, then
`init_concentration()`, then `nernst(temperature_K)` in that order, so after
`shared_state::reset` every ionic current density entry is zero, the
concentrations are the weighted proportions of their defaults, and every
reversal potential is recomputed from the (abstracted) Nernst formula at the
given temperature applied to the freshly initialised concentrations. -/
theorem C10_ion_reset_sequence (k : nernstKernel) (s : ion_state) (T : ℚ) :
    ion_state.reset k s T =
      ion_state.nernst k (ion_state.init_concentration (ion_state.zero_current s)) T
    ∧ (ion_state.reset k s T).iX_ = s.iX_.map (fun _ => 0)
    ∧ (ion_state.reset k s T).Xi_ =
        s.weight_Xi_.map (fun w => w * s.default_int_concentration)
    ∧ (ion_state.reset k s T).Xo_ =
        s.weight_Xo_.map (fun w => w * s.default_ext_concentration)
    ∧ (ion_state.reset k s T).eX_ =
        ((s.weight_Xi_.map (fun w => w * s.default_int_concentration)).zip
          (s.weight_Xo_.map (fun w => w * s.default_ext_concentration))).map
          (fun p => k.E s.charge T p.1 p.2)
    ∧ ∀ (st : shared_state) (v : ℚ),
        (shared_state.reset k st v T).ion_data =
          st.ion_data.map (fun p => (p.1, ion_state.reset k p.2 T)) :=
  ⟨rfl, rfl, rfl, rfl, rfl, fun _ _ => rfl⟩
